import Mathlib

/-!
# Verification of the pymatgen Pourbaix-diagram stability engine

Shallow embedding of `pymatgen/analysis/pourbaix_diagram.py` (montoyjh/pymatgen
snapshot).  Real numbers of the Python code are modelled by `ℚ`; the external
base-10 logarithm (`np.log10`) is threaded through as an explicit function
parameter `log10 : ℚ → ℚ`, since every property proved here holds for an
arbitrary logarithm.  Python exceptions are modelled by `Except PyErr`.
-/

namespace Pourbaix

/-- Python exception kinds that the embedded code can raise. -/
inductive PyErr
  | typeError
  | attributeError
  | valueError
  | zeroDivisionError
deriving DecidableEq

/-- `MU_H2O = -2.4583` (pourbaix_diagram.py line 45). -/
def MU_H2O : ℚ := -24583 / 10000

/-- `PREFAC = 0.0591` (pourbaix_diagram.py line 46). -/
def PREFAC : ℚ := 591 / 10000

/-- Modelled from the spec: pymatgen `Composition` (pymatgen.core.composition,
not part of src/) is a mapping element-symbol → amount.  We represent it as an
association list; `get` sums the amounts of all matching keys, which agrees
with dict lookup on duplicate-free lists and makes `add` representable as list
concatenation. -/
structure Composition where
  amounts : List (String × ℚ)
deriving DecidableEq

/-- Total amount carried by element `el` in an association list. -/
def amountOf : List (String × ℚ) → String → ℚ
  | [], _ => 0
  | p :: t, el => (if p.1 == el then p.2 else 0) + amountOf t el

/-- `composition.get(el, 0.)`. -/
def Composition.get (c : Composition) (el : String) : ℚ :=
  amountOf c.amounts el

/-- `composition.num_atoms`: total number of atoms. -/
def Composition.num_atoms (c : Composition) : ℚ :=
  (c.amounts.map Prod.snd).sum

/-- The element symbols occurring in the composition. -/
def Composition.support (c : Composition) : List String :=
  c.amounts.map Prod.fst

/-- `Composition.__mul__`: scale every amount by `w`. -/
def Composition.smul (c : Composition) (w : ℚ) : Composition :=
  ⟨c.amounts.map (fun p => (p.1, p.2 * w))⟩

/-- `Composition.__add__`: merge two compositions, adding amounts.  With the
additive `get` above, concatenation of the association lists realizes this. -/
def Composition.add (a b : Composition) : Composition :=
  ⟨a.amounts ++ b.amounts⟩

/-- Phase kind of a Pourbaix entry (`self.phase_type`, lines 73/77). -/
inductive Phase
  | Solid
  | Ion
deriving DecidableEq

/-- `PourbaixEntry.__init__` (lines 69-85): state recorded on the object.
`composition` is the wrapped entry's composition, `uncorrected_energy` the
wrapped entry's energy; solids get `concentration = 1.0` and `charge = 0`. -/
structure PourbaixEntry where
  phase_type : Phase
  composition : Composition
  uncorrected_energy : ℚ
  charge : ℚ
  concentration : ℚ
deriving DecidableEq

instance : Inhabited PourbaixEntry :=
  ⟨⟨Phase.Solid, ⟨[]⟩, 0, 0, 1⟩⟩

/-- `npH` property (lines 87-90): `n(H) - 2 n(O)`. -/
def PourbaixEntry.npH (e : PourbaixEntry) : ℚ :=
  e.composition.get "H" - 2 * e.composition.get "O"

/-- `nH2O` property (lines 92-94): `n(O)`. -/
def PourbaixEntry.nH2O (e : PourbaixEntry) : ℚ :=
  e.composition.get "O"

/-- `nPhi` property (lines 96-98): `npH - charge`. -/
def PourbaixEntry.nPhi (e : PourbaixEntry) : ℚ :=
  e.npH - e.charge

/-- `conc_term` property (lines 149-155): `PREFAC * np.log10(concentration)`.
`log10` is the external `np.log10`. -/
def PourbaixEntry.conc_term (log10 : ℚ → ℚ) (e : PourbaixEntry) : ℚ :=
  PREFAC * log10 e.concentration

/-- `energy` property (lines 110-118):
`uncorrected_energy + conc_term - MU_H2O * nH2O`. -/
def PourbaixEntry.energy (log10 : ℚ → ℚ) (e : PourbaixEntry) : ℚ :=
  e.uncorrected_energy + e.conc_term log10 - MU_H2O * e.nH2O

/-- `energy_at_conditions(pH, V)` (lines 129-140):
`energy + npH * PREFAC * pH + nPhi * V`. -/
def PourbaixEntry.energy_at_conditions (log10 : ℚ → ℚ) (e : PourbaixEntry)
    (pH V : ℚ) : ℚ :=
  e.energy log10 + e.npH * PREFAC * pH + e.nPhi * V

/-- `num_atoms` property (lines 203-208). -/
def PourbaixEntry.num_atoms (e : PourbaixEntry) : ℚ :=
  e.composition.num_atoms

/-- Denominator of `normalization_factor` (lines 188-194):
`num_atoms - n(H) - n(O)`. -/
def PourbaixEntry.normalization_denom (e : PourbaixEntry) : ℚ :=
  e.num_atoms - e.composition.get "H" - e.composition.get "O"

/-- `normalization_factor` (lines 188-194) as total rational division.  The
Python float division `1.0 / denom` raises `ZeroDivisionError` when the
denominator is zero; that behaviour is captured by
`normalization_factor_checked` below. -/
def PourbaixEntry.normalization_factor (e : PourbaixEntry) : ℚ :=
  1 / e.normalization_denom

/-- `normalization_factor` with Python's division-by-zero semantics:
`1.0 / 0.0` raises `ZeroDivisionError` in Python. -/
def PourbaixEntry.normalization_factor_checked (e : PourbaixEntry) :
    Except PyErr ℚ :=
  if e.normalization_denom = 0 then Except.error PyErr.zeroDivisionError
  else Except.ok (1 / e.normalization_denom)

/-- `normalized_energy_at_conditions(pH, V)` (lines 146-147):
`energy_at_conditions(pH, V) * normalization_factor`. -/
def PourbaixEntry.normalized_energy_at_conditions (log10 : ℚ → ℚ)
    (e : PourbaixEntry) (pH V : ℚ) : ℚ :=
  e.energy_at_conditions log10 pH V * e.normalization_factor

/-! ## MultiEntry (lines 220-282)

`MultiEntry` subclasses `PourbaixEntry` but its `__init__` only sets
`entry_list` and `weights`.  Attribute lookup on a `MultiEntry` therefore
resolves as follows:

* `uncorrected_energy` is neither an instance attribute nor a class attribute,
  so `__getattr__` fires and returns the weighted sum (lines 246-254);
* `npH`, `nH2O`, `nPhi`, `conc_term`, `composition` are *properties* inherited
  from `PourbaixEntry`; their getters read `self.entry` / `self.charge` /
  `self.concentration`, none of which exist on a `MultiEntry`, so the getter
  raises `AttributeError`, which the attribute machinery converts into a
  `__getattr__` call — again the weighted sum;
* `energy` is the inherited property whose getter
  `self.uncorrected_energy + self.conc_term - MU_H2O * self.nH2O` *succeeds*,
  with each of the three reads resolving to a weighted sum as above.  So
  `me.energy` is computed from the weighted sums of the parts, not directly as
  a weighted sum of `energy` — the two agree by linearity (proved below);
* `num_atoms`, `normalization_factor`, `energy_at_conditions` and
  `normalized_energy_at_conditions` are inherited and succeed, reading the
  `MultiEntry` values of the attributes they mention.
-/

/-- `MultiEntry.__init__` (lines 225-237). -/
structure MultiEntry where
  entry_list : List PourbaixEntry
  weights : List ℚ
deriving DecidableEq

/-- `MultiEntry(entry_list)` with the default `weights=None`, which becomes
`[1.0] * len(entry_list)` (lines 233-234). -/
def MultiEntry.ofList (l : List PourbaixEntry) : MultiEntry :=
  ⟨l, l.map (fun _ => 1)⟩

/-- The weighted sum `sum([getattr(e, item) * w for e, w in
zip(self.entry_list, self.weights)], 0)` of `MultiEntry.__getattr__`
(lines 246-254) for a numeric attribute. -/
def wsum (f : PourbaixEntry → ℚ) (me : MultiEntry) : ℚ :=
  ((me.entry_list.zip me.weights).map (fun p => f p.1 * p.2)).sum

/-- `me.uncorrected_energy`: dispatched by `__getattr__` to the weighted
sum. -/
def MultiEntry.uncorrected_energy (me : MultiEntry) : ℚ :=
  wsum PourbaixEntry.uncorrected_energy me

/-- `me.npH`: inherited property getter raises, `__getattr__` returns the
weighted sum. -/
def MultiEntry.npH (me : MultiEntry) : ℚ :=
  wsum PourbaixEntry.npH me

/-- `me.nH2O`: inherited property getter raises, `__getattr__` returns the
weighted sum. -/
def MultiEntry.nH2O (me : MultiEntry) : ℚ :=
  wsum PourbaixEntry.nH2O me

/-- `me.nPhi`: inherited property getter raises (no `self.charge`),
`__getattr__` returns the weighted sum. -/
def MultiEntry.nPhi (me : MultiEntry) : ℚ :=
  wsum PourbaixEntry.nPhi me

/-- `me.conc_term`: inherited property getter raises (no
`self.concentration`), `__getattr__` returns the weighted sum. -/
def MultiEntry.conc_term (log10 : ℚ → ℚ) (me : MultiEntry) : ℚ :=
  wsum (PourbaixEntry.conc_term log10) me

/-- `me.composition`: inherited property getter raises (no `self.entry`),
`__getattr__` returns `sum([e.composition * w for ...], Composition())`
(lines 249-254). -/
def MultiEntry.composition (me : MultiEntry) : Composition :=
  ((me.entry_list.zip me.weights).map
    (fun p => p.1.composition.smul p.2)).foldl Composition.add ⟨[]⟩

/-- `me.energy`: the inherited `energy` property getter *succeeds*, combining
the `MultiEntry` values of `uncorrected_energy`, `conc_term` and `nH2O`
(lines 110-118 applied to a `MultiEntry`). -/
def MultiEntry.energy (log10 : ℚ → ℚ) (me : MultiEntry) : ℚ :=
  me.uncorrected_energy + me.conc_term log10 - MU_H2O * me.nH2O

/-- `me.energy_at_conditions(pH, V)`: inherited method (lines 129-140) over
the `MultiEntry` values of `energy`, `npH`, `nPhi`. -/
def MultiEntry.energy_at_conditions (log10 : ℚ → ℚ) (me : MultiEntry)
    (pH V : ℚ) : ℚ :=
  me.energy log10 + me.npH * PREFAC * pH + me.nPhi * V

/-- `me.num_atoms`: inherited property over `me.composition`. -/
def MultiEntry.num_atoms (me : MultiEntry) : ℚ :=
  me.composition.num_atoms

/-- `me.normalization_factor`: inherited property (lines 188-194) over the
`MultiEntry` composition, as total rational division. -/
def MultiEntry.normalization_factor (me : MultiEntry) : ℚ :=
  1 / (me.num_atoms - me.composition.get "H" - me.composition.get "O")

/-- `me.normalized_energy_at_conditions(pH, V)`: inherited method
(lines 146-147). -/
def MultiEntry.normalized_energy_at_conditions (log10 : ℚ → ℚ)
    (me : MultiEntry) (pH V : ℚ) : ℚ :=
  me.energy_at_conditions log10 pH V * me.normalization_factor

/-- `me.phases`: `"phases"` is in neither dispatch list of
`MultiEntry.__getattr__` (lines 246-256 handle `"phase"` and `"entry_id"`,
not `"phases"`), no instance attribute or property named `phases` exists
anywhere in the class hierarchy (components carry `phase_type`), so the
fallthrough `self.__getattribute__(item)` (line 259) raises
`AttributeError`. -/
def MultiEntry.phases (_ : MultiEntry) : Except PyErr (List Phase) :=
  Except.error PyErr.attributeError

/-! ## Multi-entry generation (lines 443-513) -/

/-- Modelled from the spec: the Reaction Balancer
(`pymatgen.analysis.reaction_calculator`, an external collaborator not in
src/).  Given the reactant compositions (entry compositions plus the implicit
H and O reservoirs) and the product composition, it either returns the
stoichiometric coefficient of each composition (`rxn.get_coeff`) or signals
infeasibility (`ReactionError`). -/
def Balancer : Type := List Composition → Composition → Except Unit (Composition → ℚ)

/-- Modelled from the spec: `Composition.reduced_composition`
(pymatgen.core.composition, not in src/) — normalization of a solid
composition to its reduced formula.  Kept abstract; every theorem below holds
for an arbitrary such function. -/
def ReducedComp : Type := Composition → Composition

/-- Modelled from the spec: the ordering `total_comp < combination.composition`
on pymatgen `Composition` objects used by the combination pre-filter
(line 466).  The comparison itself lives in pymatgen core (not in src/); the
spec describes the filter as rejecting combinations whose combined composition
cannot dominate the target.  Kept abstract. -/
def CompLt : Type := Composition → Composition → Bool

/-- `dummy_oh = [Composition("H"), Composition("O")]` (line 494). -/
def dummy_oh : List Composition :=
  [⟨[("H", 1)]⟩, ⟨[("O", 1)]⟩]

/-- `entry_comps` (lines 500-502): ion entries keep their composition, solid
entries are reduced. -/
def entry_comps (red : ReducedComp) (entry_list : List PourbaixEntry) :
    List Composition :=
  entry_list.map (fun e =>
    if e.phase_type = Phase.Ion then e.composition else red e.composition)

/-- `coeffs = -np.array([rxn.get_coeff(comp) for comp in entry_comps])`
(line 506). -/
def rxn_coeffs (f : Composition → ℚ) (red : ReducedComp)
    (entry_list : List PourbaixEntry) : List ℚ :=
  (entry_comps red entry_list).map (fun c => -(f c))

/-- `thresh` (lines 504-505): the entry's concentration for ions, `1e-3` for
solids. -/
def thresholds (entry_list : List PourbaixEntry) : List ℚ :=
  entry_list.map (fun e =>
    if e.phase_type = Phase.Ion then e.concentration else 1 / 1000)

/-- `(coeffs > thresh).all()` (line 507), elementwise over equal-length
arrays. -/
def coeffs_exceed (cs ts : List ℚ) : Bool :=
  (cs.zip ts).all (fun p => decide (p.2 < p.1))

/-- `PourbaixDiagram.process_multientry(entry_list, prod_comp)`
(lines 478-513): balance the reaction, reject unless every negated
coefficient exceeds its threshold, and normalize the coefficients by the
first one to obtain the weights.  (`coeffs[0]` on an empty combination would
raise `IndexError`; combinations are always nonempty, and `headD 0` keeps the
definition total.) -/
def process_multientry (bal : Balancer) (red : ReducedComp)
    (entry_list : List PourbaixEntry) (prod_comp : Composition) :
    Option MultiEntry :=
  match bal (entry_comps red entry_list ++ dummy_oh) prod_comp with
  | Except.error _ => none
  | Except.ok f =>
      if coeffs_exceed (rxn_coeffs f red entry_list) (thresholds entry_list) then
        some ⟨entry_list, (rxn_coeffs f red entry_list).map
          (fun c => c / (rxn_coeffs f red entry_list).headD 0)⟩
      else none

/-- The combination enumeration of `_generate_multielement_entries`
(lines 462-465): for `j in range(N)` all combinations of size
`j + 1 - len(forced_include)` from `entries`, each prefixed by
`forced_include`.  `List.sublistsLen` yields the same set of combinations as
`itertools.combinations` (element order within each combination preserved);
the enumeration order of the list may differ, which no property below
depends on. -/
def candidate_combos (N : ℕ) (entries forced : List PourbaixEntry) :
    List (List PourbaixEntry) :=
  ((List.range N).flatMap
    (fun j => List.sublistsLen (j + 1 - forced.length) entries)).map
    (fun ec => forced ++ ec)

/-- `PourbaixDiagram._generate_multielement_entries(entries, forced_include)`
(lines 443-476): enumerate combinations, pre-filter by the composition
comparison `total_comp < MultiEntry(combo).composition`, process each
survivor and keep the successes.  `elt_comp` is `self._elt_comp`, so
`N = len(self._elt_comp)` and `total_comp = Composition(self._elt_comp)`. -/
def generate_multielement_entries (bal : Balancer) (red : ReducedComp)
    (clt : CompLt) (elt_comp : List (String × ℚ))
    (entries forced : List PourbaixEntry) : List MultiEntry :=
  ((candidate_combos elt_comp.length entries forced).filter
      (fun combo => clt ⟨elt_comp⟩ (MultiEntry.ofList combo).composition)).filterMap
    (fun combo => process_multientry bal red combo ⟨elt_comp⟩)

/-! ## Diagram state and query interface (lines 371-681)

The geometric half-space intersection (`get_pourbaix_domains`, lines 515-599)
is performed by scipy's `HalfspaceIntersection` — an external library — so the
set of stable entries it produces (`self._stable_domains.keys()`) is carried
abstractly in the diagram state; every query-interface property below holds
for an arbitrary stable set. -/

/-- A processed diagram entry: Python holds either a plain `PourbaixEntry` or
a `MultiEntry` in the same lists; `isinstance(entry, MultiEntry)` (line 629)
discriminates. -/
inductive PbxEntry
  | single (e : PourbaixEntry)
  | multi (me : MultiEntry)
deriving DecidableEq

/-- `isinstance(entry, MultiEntry)`. -/
def PbxEntry.isMulti : PbxEntry → Bool
  | PbxEntry.single _ => false
  | PbxEntry.multi _ => true

/-- Dispatch of `normalized_energy_at_conditions(pH, V)` on either entry
variant. -/
def PbxEntry.normalized_energy_at_conditions (log10 : ℚ → ℚ) :
    PbxEntry → ℚ → ℚ → ℚ
  | PbxEntry.single e, pH, V => e.normalized_energy_at_conditions log10 pH V
  | PbxEntry.multi me, pH, V => me.normalized_energy_at_conditions log10 pH V

/-- The state of a fully-constructed `PourbaixDiagram` (lines 387-441):
`_elt_comp`, `_preprocessed_entries` (multielement only), `_multielement`,
`_processed_entries`, and the keys of `_stable_domains` as returned by the
external geometry. -/
structure PourbaixDiagramState where
  multielement : Bool
  elt_comp : List (String × ℚ)
  preprocessed_entries : List PourbaixEntry
  processed_entries : List PbxEntry
  stable_keys : List PbxEntry
deriving DecidableEq

/-- `stable_entries` property (lines 653-658):
`list(self._stable_domains.keys())`. -/
def stable_entries (st : PourbaixDiagramState) : List PbxEntry :=
  st.stable_keys

/-- `unstable_entries` property (lines 660-666): note the comprehension
iterates `self._stable_domains.keys()` — not `self._processed_entries` —
and filters against `self.stable_entries`. -/
def unstable_entries (st : PourbaixDiagramState) : List PbxEntry :=
  st.stable_keys.filter (fun e => decide (e ∉ stable_entries st))

/-- The spec's description of `unstable_entries`: the complement of the
stable set within the processed-entry set. -/
def unstable_entries_spec (st : PourbaixDiagramState) : List PbxEntry :=
  st.processed_entries.filter (fun e => decide (e ∉ stable_entries st))

/-- A Python value passed positionally: the flags `correct_oer`/`correct_her`
are booleans, pH and V numbers. -/
inductive PyVal
  | num (q : ℚ)
  | bool (b : Bool)
deriving DecidableEq

/-- Python call semantics for `normalized_energy_at_conditions(self, pH, V)`
(line 146): the method accepts exactly two positional arguments besides
`self`; any other arity raises `TypeError`.  (A boolean argument would be
accepted — Python bools are numbers — so only the arity is checked.) -/
def call_normalized_energy_at_conditions (log10 : ℚ → ℚ) (e : PbxEntry)
    (args : List PyVal) : Except PyErr ℚ :=
  match args with
  | [PyVal.num pH, PyVal.num V] =>
      Except.ok (e.normalized_energy_at_conditions log10 pH V)
  | [a, b] =>
      Except.ok (e.normalized_energy_at_conditions log10
        (match a with | PyVal.num q => q | PyVal.bool x => if x then 1 else 0)
        (match b with | PyVal.num q => q | PyVal.bool x => if x then 1 else 0))
  | _ => Except.error PyErr.typeError

/-- The list comprehension of `get_hull_energy` (lines 648-649): evaluates
the calls left to right, propagating the first exception. -/
def eval_energy_calls (log10 : ℚ → ℚ) (es : List PbxEntry)
    (args : List PyVal) : Except PyErr (List ℚ) :=
  match es with
  | [] => Except.ok []
  | e :: rest =>
      match call_normalized_energy_at_conditions log10 e args with
      | Except.error err => Except.error err
      | Except.ok g =>
          match eval_energy_calls log10 rest args with
          | Except.error err => Except.error err
          | Except.ok gs => Except.ok (g :: gs)

/-- `np.min` of a 1-D array: raises `ValueError` on an empty array. -/
def np_min : List ℚ → Except PyErr ℚ
  | [] => Except.error PyErr.valueError
  | x :: xs => Except.ok (xs.foldl min x)

/-- `PourbaixDiagram.get_hull_energy(pH, V, correct_oer=False,
correct_her=False)` (lines 647-651): evaluates
`e.normalized_energy_at_conditions(pH, V, correct_oer, correct_her)` — four
positional arguments — for every stable entry, then takes the minimum. -/
def get_hull_energy (log10 : ℚ → ℚ) (st : PourbaixDiagramState) (pH V : ℚ)
    (correct_oer correct_her : Bool) : Except PyErr ℚ :=
  match eval_energy_calls log10 (stable_entries st)
      [PyVal.num pH, PyVal.num V, PyVal.bool correct_oer,
       PyVal.bool correct_her] with
  | Except.error err => Except.error err
  | Except.ok all_gs => np_min all_gs

/-- The filter `[e for e in possible_entries if e.phases.count("Solid") == 1]`
(lines 633-634): evaluating `e.phases` raises `AttributeError`
(see `MultiEntry.phases`), so the comprehension fails on any nonempty list. -/
def filter_single_solid : List MultiEntry → Except PyErr (List MultiEntry)
  | [] => Except.ok []
  | me :: rest =>
      match me.phases with
      | Except.error err => Except.error err
      | Except.ok phs =>
          match filter_single_solid rest with
          | Except.error err => Except.error err
          | Except.ok tail =>
              Except.ok (if (phs.filter (fun p => decide (p = Phase.Solid))).length = 1
                then me :: tail else tail)

/-- The `possible_energies` computation of `get_decomposition_energy`
(lines 628-638): in a multielement diagram a bare (non-`MultiEntry`) entry is
expanded by re-invoking the generator with the entry forced in, filtered to
single-solid combinations; otherwise the entry's own normalized energy is the
only candidate. -/
def possible_energies (log10 : ℚ → ℚ) (bal : Balancer) (red : ReducedComp)
    (clt : CompLt) (st : PourbaixDiagramState) (entry : PbxEntry)
    (pH V : ℚ) : Except PyErr (List ℚ) :=
  match entry, st.multielement with
  | PbxEntry.single e, true =>
      match filter_single_solid (generate_multielement_entries bal red clt
          st.elt_comp st.preprocessed_entries [e]) with
      | Except.error err => Except.error err
      | Except.ok filtered =>
          Except.ok (filtered.map
            (fun me => me.normalized_energy_at_conditions log10 pH V))
  | _, _ =>
      Except.ok [entry.normalized_energy_at_conditions log10 pH V]

/-- `PourbaixDiagram.get_decomposition_energy(entry, pH, V)` (lines 615-645):
the minimum candidate energy minus the hull energy. -/
def get_decomposition_energy (log10 : ℚ → ℚ) (bal : Balancer)
    (red : ReducedComp) (clt : CompLt) (st : PourbaixDiagramState)
    (entry : PbxEntry) (pH V : ℚ) : Except PyErr ℚ :=
  match possible_energies log10 bal red clt st entry pH V with
  | Except.error err => Except.error err
  | Except.ok pes =>
      match np_min pes with
      | Except.error err => Except.error err
      | Except.ok min_energy =>
          match get_hull_energy log10 st pH V false false with
          | Except.error err => Except.error err
          | Except.ok hull => Except.ok (min_energy - hull)

/-! ## Constructor frame model (lines 387-422)

`PourbaixDiagram.__init__` receives a list of references to caller-owned
`PourbaixEntry` objects and immediately rebinds `entries = deepcopy(entries)`
(line 390).  The only mutation in the whole constructor is the ion
concentration assignment `entry.concentration = ...` (lines 415-416), applied
to the deep copies.  We model object identity with an explicit heap of cells;
the caller's references index the pre-existing cells, `deepcopy` appends fresh
cells. -/

/-- A heap of entry objects; references are indices into `cells`. -/
structure EntryHeap where
  cells : List PourbaixEntry
deriving DecidableEq

/-- The single non-H/O element of an ion's composition:
`list(set(entry.composition.elements) - elements_HO)` (line 411). -/
def ion_elts (e : PourbaixEntry) : List String :=
  (e.composition.support.filter
    (fun s => !(s == "H") && !(s == "O"))).dedup

/-- The concentration assignment `entry.concentration =
conc_dict[ion_elts[0].symbol] * entry.normalization_factor` (lines 415-416),
applied only to ion entries; solids are untouched. -/
def set_ion_concentration (conc_dict : String → ℚ) (e : PourbaixEntry) :
    PourbaixEntry :=
  if e.phase_type = Phase.Ion then
    { e with concentration :=
        conc_dict ((ion_elts e).headD "") * e.normalization_factor }
  else e

/-- The ion loop of the constructor (lines 410-416): raise `ValueError` if an
ion's composition spans more than one non-H/O element, otherwise assign the
concentration.  (Python mutates each ion copy in place as it iterates; on the
error path some copies may already carry their new concentration — the
caller's originals are untouched either way, which is all the frame property
below states.) -/
def assign_concentrations (conc_dict : String → ℚ) :
    List PourbaixEntry → Except PyErr (List PourbaixEntry)
  | [] => Except.ok []
  | e :: rest =>
      if e.phase_type = Phase.Ion ∧ (ion_elts e).length ≠ 1 then
        Except.error PyErr.valueError
      else
        match assign_concentrations conc_dict rest with
        | Except.error err => Except.error err
        | Except.ok rest2 => Except.ok (set_ion_concentration conc_dict e :: rest2)

/-- The entry-processing prefix of `PourbaixDiagram.__init__` (lines 387-422):
deep-copy the referenced cells onto fresh heap cells, then run the ion
concentration loop on the copies.  Returns the extended heap and either the
references to the fresh cells or the raised exception.  Everything after
line 422 (solid filtering, multi-entry generation, domain construction) only
reads the copies. -/
def pourbaix_init (h : EntryHeap) (refs : List ℕ) (conc_dict : String → ℚ) :
    EntryHeap × Except PyErr (List ℕ) :=
  match assign_concentrations conc_dict
      (refs.map (fun r => h.cells.getD r default)) with
  | Except.error err =>
      (⟨h.cells ++ refs.map (fun r => h.cells.getD r default)⟩,
       Except.error err)
  | Except.ok copies2 =>
      (⟨h.cells ++ copies2⟩,
       Except.ok ((List.range refs.length).map (h.cells.length + ·)))

/-! ## Concrete instances used by the closed theorems and witnesses -/

/-- Solid Zn entry: composition Zn, formation energy 0. -/
def eZn : PourbaixEntry :=
  ⟨Phase.Solid, ⟨[("Zn", 1)]⟩, 0, 0, 1⟩

/-- Solid Fe entry. -/
def eFe : PourbaixEntry :=
  ⟨Phase.Solid, ⟨[("Fe", 1)]⟩, 0, 0, 1⟩

/-- Solid ZnO entry. -/
def eZnO : PourbaixEntry :=
  ⟨Phase.Solid, ⟨[("Zn", 1), ("O", 1)]⟩, -2, 0, 1⟩

/-- A pure-H/O composition entry (liquid water as a solid phase), the C9 edge
case. -/
def eWater : PourbaixEntry :=
  ⟨Phase.Solid, ⟨[("H", 2), ("O", 1)]⟩, -3, 0, 1⟩

/-- Zn ion entry (charge 2, assigned concentration 1). -/
def iZn : PourbaixEntry :=
  ⟨Phase.Ion, ⟨[("Zn", 1)]⟩, 0, 2, 1⟩

/-- Fe ion entry (charge 2, assigned concentration 1). -/
def iFe : PourbaixEntry :=
  ⟨Phase.Ion, ⟨[("Fe", 1)]⟩, 0, 2, 1⟩

/-- A balancer that always succeeds with coefficient `-2` for every
composition. -/
def balTwo : Balancer := fun _ _ => Except.ok (fun _ => -2)

/-- Product composition Zn. -/
def pcZn : Composition := ⟨[("Zn", 1)]⟩

/-- A balancer that always succeeds with coefficient `-1` for every
composition (every reactant consumed with unit coefficient). -/
def balUnit : Balancer := fun _ _ => Except.ok (fun _ => -1)

/-- A balancer that always reports infeasibility (`ReactionError`). -/
def balInfeasible : Balancer := fun _ _ => Except.error ()

/-- Identity reduced-composition function. -/
def redId : ReducedComp := fun c => c

/-- A composition comparison accepting every combination. -/
def cltTrue : CompLt := fun _ _ => true

/-- Fully-constructed single-element Zn diagram state with one stable entry
(Zn(s)): realizes the generic hypotheses of the query-interface claims. -/
def stC1 : PourbaixDiagramState :=
  { multielement := false
    elt_comp := [("Zn", 1)]
    preprocessed_entries := []
    processed_entries := [PbxEntry.single eZn]
    stable_keys := [PbxEntry.single eZn] }

/-- Single-element Zn diagram state whose processed entries are Zn(s) and
ZnO(s) while only Zn(s) has a stable domain. -/
def stC3 : PourbaixDiagramState :=
  { multielement := false
    elt_comp := [("Zn", 1)]
    preprocessed_entries := []
    processed_entries := [PbxEntry.single eZn, PbxEntry.single eZnO]
    stable_keys := [PbxEntry.single eZn] }

/-- Multi-element Zn-Fe diagram state: preprocessed pool of the Zn and Fe
ions; one stable multi-entry. -/
def stC4 : PourbaixDiagramState :=
  { multielement := true
    elt_comp := [("Zn", 1), ("Fe", 1)]
    preprocessed_entries := [iZn, iFe]
    processed_entries := [PbxEntry.multi (MultiEntry.ofList [iZn, iFe])]
    stable_keys := [PbxEntry.multi (MultiEntry.ofList [iZn, iFe])] }

/-! ## Helper lemmas -/

/-- Linearity of the weighted sum: the weighted sum of `energy` decomposes
into the weighted sums of `uncorrected_energy`, `conc_term` and `nH2O`. -/
theorem sum_energy_parts (log10 : ℚ → ℚ) (l : List (PourbaixEntry × ℚ)) :
    (l.map (fun p => PourbaixEntry.energy log10 p.1 * p.2)).sum
      = (l.map (fun p => p.1.uncorrected_energy * p.2)).sum
        + (l.map (fun p => PourbaixEntry.conc_term log10 p.1 * p.2)).sum
        - MU_H2O * (l.map (fun p => PourbaixEntry.nH2O p.1 * p.2)).sum := by
  induction l with
  | nil => simp
  | cons p t ih =>
      simp only [List.map_cons, List.sum_cons, ih]
      simp only [PourbaixEntry.energy]
      ring

/-- Splitting the total amount of an association list into the H amount, the
O amount, and the amounts on other elements. -/
theorem amounts_split (l : List (String × ℚ)) :
    (l.map Prod.snd).sum
      = amountOf l "H" + amountOf l "O"
        + ((l.filter (fun p => !(p.1 == "H") && !(p.1 == "O"))).map
            Prod.snd).sum := by
  induction l with
  | nil => simp [amountOf]
  | cons p t ih =>
      have e1 : (("H" : String) == "O") = false := by decide
      have e2 : (("O" : String) == "H") = false := by decide
      by_cases hH : p.1 = "H"
      · simp [amountOf, List.filter_cons, hH, e1, ih]
        ring
      · by_cases hO : p.1 = "O"
        · simp [amountOf, List.filter_cons, hO, e2, ih]
          ring
        · have f1 : (p.1 == "H") = false := beq_eq_false_iff_ne.mpr hH
          have f2 : (p.1 == "O") = false := beq_eq_false_iff_ne.mpr hO
          simp [amountOf, List.filter_cons, f1, f2, ih]
          ring

/-- `process_multientry` when the balancer signals infeasibility. -/
theorem process_multientry_of_error (bal : Balancer) (red : ReducedComp)
    (el : List PourbaixEntry) (pc : Composition) (err : Unit)
    (hb : bal (entry_comps red el ++ dummy_oh) pc = Except.error err) :
    process_multientry bal red el pc = none := by
  unfold process_multientry
  rw [hb]

/-- `process_multientry` when the balancer succeeds. -/
theorem process_multientry_of_ok (bal : Balancer) (red : ReducedComp)
    (el : List PourbaixEntry) (pc : Composition) (f : Composition → ℚ)
    (hb : bal (entry_comps red el ++ dummy_oh) pc = Except.ok f) :
    process_multientry bal red el pc
      = if coeffs_exceed (rxn_coeffs f red el) (thresholds el) then
          some ⟨el, (rxn_coeffs f red el).map
            (fun c => c / (rxn_coeffs f red el).headD 0)⟩
        else none := by
  unfold process_multientry
  rw [hb]

/-- Head of the elementwise comparison. -/
theorem coeffs_exceed_head (c0 t0 : ℚ) (cs ts : List ℚ)
    (h : coeffs_exceed (c0 :: cs) (t0 :: ts) = true) : t0 < c0 := by
  simp only [coeffs_exceed, List.zip_cons_cons, List.all_cons,
    Bool.and_eq_true, decide_eq_true_eq] at h
  exact h.1

/-- `rxn_coeffs` over a cons. -/
theorem rxn_coeffs_cons (f : Composition → ℚ) (red : ReducedComp)
    (e0 : PourbaixEntry) (el2 : List PourbaixEntry) :
    rxn_coeffs f red (e0 :: el2)
      = -(f (if e0.phase_type = Phase.Ion then e0.composition
             else red e0.composition)) :: rxn_coeffs f red el2 := rfl

/-- `thresholds` over a cons. -/
theorem thresholds_cons (e0 : PourbaixEntry) (el2 : List PourbaixEntry) :
    thresholds (e0 :: el2)
      = (if e0.phase_type = Phase.Ion then e0.concentration else 1/1000)
        :: thresholds el2 := rfl

/-! ## The claims -/

/-- Claim C8: for every `PourbaixEntry`, `energy_at_conditions(pH, V)` equals
`energy + npH * PREFAC * pH + nPhi * V`, and in particular
`energy_at_conditions(0, 0) = energy`. -/
theorem c8_energy_at_conditions (log10 : ℚ → ℚ) (e : PourbaixEntry)
    (pH V : ℚ) :
    e.energy_at_conditions log10 pH V
      = e.energy log10 + e.npH * PREFAC * pH + e.nPhi * V
    ∧ e.energy_at_conditions log10 0 0 = e.energy log10 := by
  refine ⟨rfl, ?_⟩
  simp [PourbaixEntry.energy_at_conditions]

/-- Claim C9: for an entry whose composition contains only H and O atoms, the
per-atom normalization denominator `num_atoms - n(H) - n(O)` is zero, so
evaluating `normalization_factor` fails with a division-by-zero error. -/
theorem c9_pure_HO_normalization_fails (e : PourbaixEntry)
    (h : ∀ p ∈ e.composition.amounts, p.1 = "H" ∨ p.1 = "O") :
    e.normalization_denom = 0
    ∧ e.normalization_factor_checked = Except.error PyErr.zeroDivisionError := by
  have hfilter : e.composition.amounts.filter
      (fun p => !(p.1 == "H") && !(p.1 == "O")) = [] := by
    rw [List.filter_eq_nil_iff]
    intro a ha
    rcases h a ha with h1 | h1 <;> simp [h1]
  have hd : e.normalization_denom = 0 := by
    unfold PourbaixEntry.normalization_denom PourbaixEntry.num_atoms
      Composition.num_atoms Composition.get
    rw [amounts_split e.composition.amounts, hfilter]
    simp
  refine ⟨hd, ?_⟩
  unfold PourbaixEntry.normalization_factor_checked
  rw [hd]
  rfl

/-- Witness for C9 at water (H2O). -/
theorem c9_witness :
    (∀ p ∈ eWater.composition.amounts, p.1 = "H" ∨ p.1 = "O")
    ∧ (eWater.normalization_denom = 0
       ∧ eWater.normalization_factor_checked
           = Except.error PyErr.zeroDivisionError) :=
  ⟨by decide, c9_pure_HO_normalization_fails eWater (by decide)⟩

/-- Claim C5: every derived attribute of a `MultiEntry` in
{energy, npH, nH2O, nPhi, conc_term, uncorrected_energy, composition} equals
the weighted sum of component attributes.  For `energy` the Python lookup
path combines the weighted sums of the parts through the inherited property
getter; the equality with the weighted sum of component energies holds by
linearity. -/
theorem c5_multientry_weighted_sums (log10 : ℚ → ℚ) (me : MultiEntry) :
    me.energy log10 = wsum (PourbaixEntry.energy log10) me
    ∧ me.npH = wsum PourbaixEntry.npH me
    ∧ me.nH2O = wsum PourbaixEntry.nH2O me
    ∧ me.nPhi = wsum PourbaixEntry.nPhi me
    ∧ me.conc_term log10 = wsum (PourbaixEntry.conc_term log10) me
    ∧ me.uncorrected_energy = wsum PourbaixEntry.uncorrected_energy me
    ∧ me.composition = ((me.entry_list.zip me.weights).map
        (fun p => p.1.composition.smul p.2)).foldl Composition.add ⟨[]⟩ := by
  refine ⟨?_, rfl, rfl, rfl, rfl, rfl, rfl⟩
  have h := sum_energy_parts log10 (me.entry_list.zip me.weights)
  unfold MultiEntry.energy MultiEntry.uncorrected_energy MultiEntry.conc_term
    MultiEntry.nH2O wsum
  exact h.symm

/-- Claim C3 (code bug): `unstable_entries` filters
`self._stable_domains.keys()` — not the processed-entry set — against
`stable_entries`, i.e. it takes the complement of the stable set within
itself, so it returns the empty list for every diagram.  On the concrete
state `stC3` (processed: Zn(s), ZnO(s); stable: Zn(s)) the complement the
spec describes is `[ZnO(s)]`, yet the code yields `[]`. -/
theorem c3_unstable_entries_always_empty :
    (∀ st : PourbaixDiagramState, unstable_entries st = [])
    ∧ unstable_entries_spec stC3 = [PbxEntry.single eZnO]
    ∧ unstable_entries stC3 = [] := by
  refine ⟨?_, by decide, by decide⟩
  intro st
  unfold unstable_entries stable_entries
  rw [List.filter_eq_nil_iff]
  intro a ha
  simp [ha]

/-- Claim C10: the constructor deep-copies the caller's entries before the
ion-concentration assignment, so the pre-existing heap cells — the caller's
entry objects, every attribute included — are unchanged by construction. -/
theorem c10_constructor_preserves_caller_entries (h : EntryHeap)
    (refs : List ℕ) (conc_dict : String → ℚ) :
    ((pourbaix_init h refs conc_dict).1.cells.take h.cells.length)
      = h.cells := by
  unfold pourbaix_init
  split <;> simp [List.take_left]

/-- Claim C1 (code bug): `get_hull_energy` passes four positional arguments
`(pH, V, correct_oer, correct_her)` to `normalized_energy_at_conditions`,
whose signature is `(self, pH, V)`, so on every diagram with at least one
stable entry every call raises `TypeError` instead of returning the minimum
normalized energy. -/
theorem c1_get_hull_energy_raises (log10 : ℚ → ℚ)
    (st : PourbaixDiagramState) (pH V : ℚ) (co ch : Bool)
    (h : stable_entries st ≠ []) :
    get_hull_energy log10 st pH V co ch = Except.error PyErr.typeError := by
  obtain ⟨e, es, he⟩ := List.exists_cons_of_ne_nil h
  unfold get_hull_energy
  rw [he]
  rfl

/-- Witness for C1 on the fully-constructed single-element Zn diagram. -/
theorem c1_witness :
    stable_entries stC1 ≠ []
    ∧ get_hull_energy (fun _ => 0) stC1 0 0 false false
        = Except.error PyErr.typeError :=
  ⟨by decide,
   c1_get_hull_energy_raises (fun _ => 0) stC1 0 0 false false (by decide)⟩

/-- Claim C2 (code bug): `get_decomposition_energy` calls
`get_hull_energy(pH, V)`, which always raises `TypeError` (claim C1), so it
never returns a number at all — here evaluated at the hull-determining
stable entry Zn(s) of the Zn diagram at (pH, V) = (0, 0), where the claim
asserts the value 0. -/
theorem c2_get_decomposition_energy_raises :
    get_decomposition_energy (fun _ => 0) balUnit redId cltTrue stC1
      (PbxEntry.single eZn) 0 0 = Except.error PyErr.typeError := rfl

/-- Claim C4 (code bug): in a multielement diagram, querying
`get_decomposition_energy` with a bare (non-`MultiEntry`) entry re-invokes
the generator with the entry forced in, but the subsequent filter evaluates
`e.phases`, an attribute no class in the hierarchy defines
(`MultiEntry.__getattr__` dispatches `"phase"` and `"entry_id"` only), so the
call raises `AttributeError` whenever the generator returns any candidate. -/
theorem c4_decomposition_multielement_raises (log10 : ℚ → ℚ) (bal : Balancer)
    (red : ReducedComp) (clt : CompLt) (st : PourbaixDiagramState)
    (e : PourbaixEntry) (pH V : ℚ) (hm : st.multielement = true)
    (hne : generate_multielement_entries bal red clt st.elt_comp
      st.preprocessed_entries [e] ≠ []) :
    get_decomposition_energy log10 bal red clt st (PbxEntry.single e) pH V
      = Except.error PyErr.attributeError := by
  obtain ⟨me, mes, hg⟩ := List.exists_cons_of_ne_nil hne
  have h2 : possible_energies log10 bal red clt st (PbxEntry.single e) pH V
      = Except.error PyErr.attributeError := by
    unfold possible_energies
    rw [hm]
    show (match filter_single_solid (generate_multielement_entries bal red clt
          st.elt_comp st.preprocessed_entries [e]) with
      | Except.error err => Except.error err
      | Except.ok filtered =>
          Except.ok (filtered.map
            (fun me => me.normalized_energy_at_conditions log10 pH V)))
      = Except.error PyErr.attributeError
    rw [hg]
    rfl
  unfold get_decomposition_energy
  rw [h2]

/-- Witness for C4 on a Zn-Fe diagram whose candidate pool holds the Zn and
Fe ions: the generator produces candidates, and the query raises. -/
theorem c4_witness :
    stC4.multielement = true
    ∧ generate_multielement_entries balTwo redId cltTrue stC4.elt_comp
        stC4.preprocessed_entries [iZn] ≠ []
    ∧ get_decomposition_energy (fun _ => 0) balTwo redId cltTrue stC4
        (PbxEntry.single iZn) 0 0 = Except.error PyErr.attributeError :=
  ⟨rfl, by decide,
   c4_decomposition_multielement_raises (fun _ => 0) balTwo redId cltTrue
     stC4 iZn 0 0 rfl (by decide)⟩

/-- Claim C6: `process_multientry` returns a `MultiEntry` exactly when the
balancer succeeds and every negated reaction coefficient exceeds its
feasibility threshold (1e-3 for solids, the ion's own concentration for
ions), and then the weight vector is the coefficient vector divided by the
first coefficient — so the first weight is 1. -/
theorem c6_process_multientry_spec (bal : Balancer) (red : ReducedComp)
    (el : List PourbaixEntry) (pc : Composition) (me : MultiEntry)
    (hne : el ≠ [])
    (hconc : ∀ e ∈ el, e.phase_type = Phase.Ion → 0 < e.concentration) :
    (process_multientry bal red el pc = some me ↔
      ∃ f, bal (entry_comps red el ++ dummy_oh) pc = Except.ok f
        ∧ coeffs_exceed (rxn_coeffs f red el) (thresholds el) = true
        ∧ me = ⟨el, (rxn_coeffs f red el).map
            (fun c => c / (rxn_coeffs f red el).headD 0)⟩)
    ∧ (process_multientry bal red el pc = some me →
        me.weights.headD 0 = 1) := by
  obtain ⟨e0, el2, rfl⟩ := List.exists_cons_of_ne_nil hne
  cases hb : bal (entry_comps red (e0 :: el2) ++ dummy_oh) pc with
  | error err =>
      have hp := process_multientry_of_error bal red (e0 :: el2) pc err hb
      rw [hp]
      refine ⟨⟨fun hq => Option.noConfusion hq, ?_⟩,
        fun hq => Option.noConfusion hq⟩
      rintro ⟨f2, hf2, -, -⟩
      exact Except.noConfusion hf2
  | ok f =>
      have hp := process_multientry_of_ok bal red (e0 :: el2) pc f hb
      by_cases hc : coeffs_exceed (rxn_coeffs f red (e0 :: el2))
          (thresholds (e0 :: el2)) = true
      · rw [hp, if_pos hc]
        constructor
        · constructor
          · intro hq
            injection hq with hq2
            exact ⟨f, rfl, hc, hq2.symm⟩
          · rintro ⟨f2, hf2, -, hme⟩
            injection hf2 with hf2e
            subst hf2e
            rw [hme]
        · intro hq
          injection hq with hq2
          subst hq2
          rw [rxn_coeffs_cons f red e0 el2, thresholds_cons e0 el2] at hc
          have hhead := coeffs_exceed_head _ _ _ _ hc
          have ht0 : (0 : ℚ)
              < (if e0.phase_type = Phase.Ion then e0.concentration
                 else 1/1000) := by
            by_cases hp0 : e0.phase_type = Phase.Ion
            · rw [if_pos hp0]
              exact hconc e0 (List.mem_cons_self e0 el2) hp0
            · rw [if_neg hp0]
              norm_num
          have hc0 := lt_trans ht0 hhead
          simp only [rxn_coeffs_cons f red e0 el2, List.map_cons,
            List.headD_cons]
          exact div_self (ne_of_gt hc0)
      · rw [hp, if_neg hc]
        refine ⟨⟨fun hq => Option.noConfusion hq, ?_⟩,
          fun hq => Option.noConfusion hq⟩
        rintro ⟨f2, hf2, hc2, -⟩
        injection hf2 with hf2e
        subst hf2e
        exact absurd hc2 hc

/-- Witness for C6 on the combination [Zn(s)] with product composition Zn
and a balancer giving every reactant coefficient -1. -/
theorem c6_witness :
    (([eZn] : List PourbaixEntry) ≠ []
     ∧ ∀ e ∈ ([eZn] : List PourbaixEntry),
         e.phase_type = Phase.Ion → 0 < e.concentration)
    ∧ ((process_multientry balUnit redId [eZn] pcZn
          = some (MultiEntry.ofList [eZn]) ↔
        ∃ f, balUnit (entry_comps redId [eZn] ++ dummy_oh) pcZn = Except.ok f
          ∧ coeffs_exceed (rxn_coeffs f redId [eZn]) (thresholds [eZn]) = true
          ∧ MultiEntry.ofList [eZn] = ⟨[eZn], (rxn_coeffs f redId [eZn]).map
              (fun c => c / (rxn_coeffs f redId [eZn]).headD 0)⟩)
       ∧ (process_multientry balUnit redId [eZn] pcZn
            = some (MultiEntry.ofList [eZn]) →
          (MultiEntry.ofList [eZn]).weights.headD 0 = 1)) :=
  ⟨⟨by decide, by decide⟩,
   c6_process_multientry_spec balUnit redId [eZn] pcZn
     (MultiEntry.ofList [eZn]) (by decide) (by decide)⟩

/-- Claim C7: when the balancer reports infeasibility on a combination,
`process_multientry` returns `None` — no exception escapes — and the
generator output consists exactly of the successfully processed
combinations, so the infeasible combination is silently excluded. -/
theorem c7_infeasible_silently_dropped (bal : Balancer) (red : ReducedComp)
    (clt : CompLt) (elt_comp : List (String × ℚ))
    (entries forced el : List PourbaixEntry) (pc : Composition) (err : Unit)
    (hb : bal (entry_comps red el ++ dummy_oh) pc = Except.error err) :
    process_multientry bal red el pc = none
    ∧ ∀ me : MultiEntry,
        me ∈ generate_multielement_entries bal red clt elt_comp entries forced
        ↔ ∃ combo ∈ (candidate_combos elt_comp.length entries forced).filter
            (fun c => clt ⟨elt_comp⟩ (MultiEntry.ofList c).composition),
            process_multientry bal red combo ⟨elt_comp⟩ = some me := by
  refine ⟨process_multientry_of_error bal red el pc err hb, ?_⟩
  intro me
  unfold generate_multielement_entries
  exact List.mem_filterMap

/-- Witness for C7 with an always-infeasible balancer on the Zn pool. -/
theorem c7_witness :
    balInfeasible (entry_comps redId [eZn] ++ dummy_oh) pcZn
      = Except.error ()
    ∧ (process_multientry balInfeasible redId [eZn] pcZn = none
       ∧ ∀ me : MultiEntry,
           me ∈ generate_multielement_entries balInfeasible redId cltTrue
             [("Zn", (1 : ℚ))] [eZn] []
           ↔ ∃ combo ∈ (candidate_combos
                 ([("Zn", (1 : ℚ))] : List (String × ℚ)).length [eZn] []).filter
               (fun c => cltTrue ⟨[("Zn", (1 : ℚ))]⟩
                 (MultiEntry.ofList c).composition),
               process_multientry balInfeasible redId combo
                 ⟨[("Zn", (1 : ℚ))]⟩ = some me) :=
  ⟨rfl,
   c7_infeasible_silently_dropped balInfeasible redId cltTrue
     [("Zn", (1 : ℚ))] [eZn] [] [eZn] pcZn () rfl⟩

end Pourbaix
